import Mathlib

/-!
Verification of the message-envelope and handler-dispatch core of the
quickwit actor runtime (src/quickwit/quickwit-actors/src/envelope.rs),
as a shallow embedding in Lean 4.

Modelling choices, all read directly off the Rust source:

* Rust `Box<dyn Any>` with its runtime-type-checked `downcast` is modelled
  by a sigma type over a universe `U` of runtime type codes with decidable
  equality, `Sigma El`; `downcast::<T>` is a decidable-equality test on the
  code followed by a cast.  The Rust unit type `()` is itself `Any`, so the
  universe carries a distinguished code whose element type plays the role
  of unit (the source boxes `()` when the slot is already consumed).
* The holder `Option<(oneshot::Sender<A::Reply>, M)>` is the `slot` field:
  `some m` means the (reply-sender, payload) pair is present, `none` means
  it was taken.  The oneshot channel is modelled by the `sent` field (the
  value successfully delivered to the receiver, if any) together with the
  `receiverDropped` flag (the sender side fails exactly when the receiver
  end was dropped, and the source discards that failure).  The sender end
  lives inside the slot, so the sender is held exactly while `slot` is
  `some`; once the slot is taken without a successful send the receiver
  can only resolve to the cancelled outcome (`sent = none`).
* A Rust panic (the `.expect(..)` in `handle_message`) is the `fatal`
  constructor of `PanicOr`; a normal return is `ok`.
* The actor handler `async fn handle(&mut self, msg, ctx) -> Result<Reply,
  ActorExitStatus>` is a pure function `A → M → Ctx → A × Except E R`
  (new actor state paired with the handler outcome); `await` points are
  irrelevant to the per-envelope state machine because dispatch runs the
  handler to completion.
-/

namespace EnvelopeModel

/-- Result of a Rust call that may abort the process: `fatal msg` models a
panic with the given message, `ok v` a normal return of `v`. -/
inductive PanicOr (α : Type) where
  | fatal (msg : String)
  | ok (val : α)
deriving Repr

/-- Runtime-type-checked downcast of an erased value (`Box<dyn Any>` is a
pair of a runtime type code and a value of the coded type): succeeds exactly
when the stored code equals the requested code. -/
def downcastTo {U : Type} [DecidableEq U] {El : U → Type} (t : U)
    (b : Sigma El) : Option (El t) :=
  if h : b.fst = t then some (h ▸ b.snd) else none

/-- State of one `Envelope<A>` together with the oneshot reply channel the
factory created for it.

`slot` is the holder `Option<(oneshot::Sender<A::Reply>, M)>`: `some m`
means loaded (sender and payload both present), `none` means consumed.
`sent` is the value successfully delivered into the reply channel, if any.
`receiverDropped` records whether the original caller dropped its receiver.
`guard` is the `_no_advance_time_guard : Option<NoAdvanceTimeGuard>` field,
an opaque token the envelope only holds. -/
structure Envelope (U : Type) (El : U → Type) (R G : Type) (mC : U) where
  slot : Option (El mC)
  sent : Option R
  receiverDropped : Bool
  guard : Option G

/-- Factory `wrap_in_envelope`: builds a fresh oneshot channel and an
envelope whose holder is `Some((response_tx, msg))`; the receiver end is
handed back to the caller (modelled by `receiver_outcome` below: nothing
sent yet, receiver alive). -/
def wrap_in_envelope {U : Type} (El : U → Type) (R G : Type) (mC : U)
    (msg : El mC) (guard : Option G) : Envelope U El R G mC :=
  { slot := some msg, sent := none, receiverDropped := false, guard := guard }

/-- The original sender drops its `oneshot::Receiver` (an action of the
environment, possible at any time before or after dispatch). -/
def drop_receiver {U : Type} {El : U → Type} {R G : Type} {mC : U}
    (e : Envelope U El R G mC) : Envelope U El R G mC :=
  { e with receiverDropped := true }

/-- What the reply receiver ultimately yields once the sender end is gone:
`some r` if a reply was delivered, `none` for the cancelled outcome (sender
dropped without sending). -/
def receiver_outcome {U : Type} {El : U → Type} {R G : Type} {mC : U}
    (e : Envelope U El R G mC) : Option R :=
  e.sent

/-- `EnvelopeT::debug_msg` for the holder (and the payload part of the
`fmt::Debug` impl of `Envelope`): formats the payload while the slot is
occupied, returns the sentinel `"<consumed>"` once the slot is empty.
Takes `&self`: a pure read, the state is untouched. `fmtM` is the `Debug`
instance of the payload type. -/
def debug_msg {U : Type} {El : U → Type} {R G : Type} {mC : U}
    (fmtM : El mC → String) (e : Envelope U El R G mC) : String :=
  match e.slot with
  | some m => fmtM m
  | none => "<consumed>"

/-- The `fmt::Debug` impl of `Envelope<A>`: wraps `debug_msg` in the
`Envelope(..)` tuple label, the field being the string itself (printed with
its own Debug form, i.e. quoted). -/
def fmtDebug {U : Type} {El : U → Type} {R G : Type} {mC : U}
    (fmtM : El mC → String) (e : Envelope U El R G mC) : String :=
  "Envelope(" ++ toString (repr (debug_msg fmtM e)) ++ ")"

/-- `EnvelopeT::message` for the holder: `self.take()`.  If the slot is
occupied, removes the whole (sender, payload) pair, boxes only the payload
(the sender is dropped without sending) and returns it erased; if already
empty, returns `Box::new(())` — the erased unit value `⟨unitC, u0⟩` — and
leaves the state as it was (taking `None` is a no-op). -/
def message {U : Type} [DecidableEq U] {El : U → Type} {R G : Type} {mC : U}
    (unitC : U) (u0 : El unitC) (e : Envelope U El R G mC) :
    Sigma El × Envelope U El R G mC :=
  match e.slot with
  | some m => (⟨mC, m⟩, { e with slot := none })
  | none => (⟨unitC, u0⟩, e)

/-- `Envelope::message_typed::<T>`: calls the holder `message` and attempts
the runtime-type-checked downcast of the erased box to the requested code
`t`, returning `some` on success and `none` on mismatch. -/
def message_typed {U : Type} [DecidableEq U] {El : U → Type} {R G : Type}
    {mC : U} (unitC : U) (u0 : El unitC) (t : U)
    (e : Envelope U El R G mC) : Option (El t) × Envelope U El R G mC :=
  let p := message unitC u0 e
  (downcastTo t p.fst, p.snd)

/-- `EnvelopeT::handle_message` for the holder, and equally
`Envelope::handle_message` (the facade runs the holder call, propagates its
error with `?` and returns `Ok(())`, which is the identity on
`Result<(), ActorExitStatus>`, panics included).

`self.take().expect("handle_message should never be called twice.")`: on an
empty slot, panic with that message.  Otherwise run the handler to
completion on the payload; `?` propagates a handler `Err` verbatim (the
taken sender is dropped without sending).  On handler `Ok(reply)`, send the
reply into the sender and discard the send result: delivery succeeds
exactly when the receiver is still alive. -/
def handle_message {U : Type} {El : U → Type} {R G : Type} {mC : U}
    {A Ctx E : Type} (handle : A → El mC → Ctx → A × Except E R)
    (e : Envelope U El R G mC) (actor : A) (ctx : Ctx) :
    PanicOr (Except E Unit × Envelope U El R G mC × A) :=
  match e.slot with
  | none => .fatal "handle_message should never be called twice."
  | some msg =>
    match handle actor msg ctx with
    | (a2, .error ex) => .ok (.error ex, { e with slot := none }, a2)
    | (a2, .ok reply) =>
      .ok (.ok (),
        { e with slot := none,
                 sent := if e.receiverDropped then e.sent else some reply },
        a2)

/-- The envelope state after a dispatch that returned (did not panic):
`none` when the dispatch panicked. -/
def afterDispatch {U : Type} {El : U → Type} {R G : Type} {mC : U}
    {A Ctx E : Type} (handle : A → El mC → Ctx → A × Except E R)
    (e : Envelope U El R G mC) (actor : A) (ctx : Ctx) :
    Option (Envelope U El R G mC) :=
  match handle_message handle e actor ctx with
  | .fatal _ => none
  | .ok r => some r.2.1

/-!
Concrete instantiation used by witnesses and counterexamples: the universe
of runtime type codes is `Nat`, code `0` is the Rust unit type `()`, every
other code is a distinct payload type; code `1` carries the `Increment`
payload of the spec Counter scenario, modelled by its `Nat` amount.
-/

/-- Runtime type universe for the concrete scenarios: code 0 is the unit
type, other codes carry a `Nat` payload (`Increment(n)` is `n` at code 1). -/
@[reducible] def ElC : Nat → Type
  | 0 => Unit
  | _ => Nat

/-- The Counter actor of spec Scenario A: state is its count, the handler
for `Increment(n)` adds `n` and replies with the new count. -/
def counterHandle : Nat → ElC 1 → Unit → Nat × Except String Nat :=
  fun count amount _ =>
    let n : Nat := amount
    (count + n, Except.ok (count + n))

/-- Scenario A envelope: `Increment(5)` wrapped for the Counter actor, no
scheduler guard. -/
def envA : Envelope Nat ElC Nat Unit 1 :=
  wrap_in_envelope ElC Nat Unit 1 (5 : Nat) none

/-- Envelope state after the Scenario A dispatch: consumed, reply 15
delivered. -/
def envAafter : Envelope Nat ElC Nat Unit 1 :=
  { slot := none, sent := some 15, receiverDropped := false, guard := none }

/-- An envelope whose payload is the Rust unit type itself (code 0): the
unit type satisfies every bound the source puts on a payload type, so this
is a legal instantiation of `wrap_in_envelope`. -/
def envU : Envelope Nat ElC Nat Unit 0 :=
  wrap_in_envelope ElC Nat Unit 0 () none

/-- Debug formatter of the `Increment` payload, as its Rust derive would
print it. -/
def fmtIncr : ElC 1 → String :=
  fun n => "Increment(" ++ toString (n : Nat) ++ ")"

/-- A Counter handler that always fails with an exit status. -/
def failHandle : Nat → ElC 1 → Unit → Nat × Except String Nat :=
  fun count _ _ => (count, Except.error "handler failed")

/-- Replace the guard field of an envelope, used to state that no operation
ever inspects the guard. -/
def setGuard {U : Type} {El : U → Type} {R G : Type} {mC : U}
    (e : Envelope U El R G mC) (g2 : Option G) : Envelope U El R G mC :=
  { e with guard := g2 }

/-- One operation of the envelope surface, for reasoning about arbitrary
operation sequences: opaque extraction, typed extraction, debug formatting,
the environment dropping the receiver, or dispatch against an actor. -/
inductive Op (U : Type) (A Ctx : Type) where
  | extractOpaque
  | extractTyped (t : U)
  | debugFmt
  | dropReceiver
  | dispatch (actor : A) (ctx : Ctx)

/-- Apply one operation to an envelope: `none` means the operation
panicked (dispatch of a consumed envelope), otherwise the successor state.
Debug formatting takes `&self` and leaves the state untouched. -/
def applyOp {U : Type} [DecidableEq U] {El : U → Type} {R G : Type} {mC : U}
    {A Ctx E : Type} (unitC : U) (u0 : El unitC)
    (handle : A → El mC → Ctx → A × Except E R) :
    Op U A Ctx → Envelope U El R G mC → Option (Envelope U El R G mC)
  | .extractOpaque, e => some (message unitC u0 e).snd
  | .extractTyped t, e => some (message_typed unitC u0 t e).snd
  | .debugFmt, e => some e
  | .dropReceiver, e => some (drop_receiver e)
  | .dispatch actor ctx, e => afterDispatch handle e actor ctx

/-- Run a sequence of operations, stopping (with `none`) at the first
panic. -/
def runOps {U : Type} [DecidableEq U] {El : U → Type} {R G : Type} {mC : U}
    {A Ctx E : Type} (unitC : U) (u0 : El unitC)
    (handle : A → El mC → Ctx → A × Except E R) :
    List (Op U A Ctx) → Envelope U El R G mC → Option (Envelope U El R G mC)
  | [], e => some e
  | op :: rest, e =>
    match applyOp unitC u0 handle op e with
    | none => none
    | some e2 => runOps unitC u0 handle rest e2

/-!
Theorems.  Each claim of the specification is settled by exactly one
theorem below.
-/

/-- C3: building an envelope from a payload `m` of type coded `mC` and
immediately extracting with the same type code returns `some m`, the
original payload unchanged. -/
theorem message_typed_roundtrip {U : Type} [DecidableEq U] {El : U → Type}
    {R G : Type} {mC : U} (unitC : U) (u0 : El unitC) (m : El mC)
    (g : Option G) :
    (message_typed unitC u0 mC (wrap_in_envelope El R G mC m g)).fst
      = some m := by
  simp [message_typed, message, wrap_in_envelope, downcastTo]

/-- C4, counterexample: the claim fails when the payload type is the unit
type itself.  The source returns `Box::new(())` once the slot is consumed,
and downcasting that box to the unit type succeeds, so with payload `()`
the first typed extraction yields `some ()` and the second yields
`some ()` again, not the absent result the claim demands. -/
theorem message_typed_second_unit_payload :
    (message_typed 0 () 0 envU).fst = some () ∧
    (message_typed 0 () 0 (message_typed 0 () 0 envU).snd).fst = some () :=
  ⟨rfl, rfl⟩

/-- C4, amended: for a payload type distinct from the unit type, after the
first typed extraction succeeds, a second typed extraction with the same
type returns the absent result. -/
theorem message_typed_second_none {U : Type} [DecidableEq U] {El : U → Type}
    {R G : Type} {mC : U} (unitC : U) (u0 : El unitC) (m : El mC)
    (g : Option G) (hm : mC ≠ unitC) :
    (message_typed unitC u0 mC (wrap_in_envelope El R G mC m g)).fst
        = some m ∧
    (message_typed unitC u0 mC
        (message_typed unitC u0 mC (wrap_in_envelope El R G mC m g)).snd).fst
      = none := by
  constructor
  · simp [message_typed, message, wrap_in_envelope, downcastTo]
  · simp [message_typed, message, wrap_in_envelope, downcastTo, Ne.symm hm]

/-- Witness for the amended C4 at the concrete Increment scenario. -/
theorem message_typed_second_none_witness :
    (1 : Nat) ≠ (0 : Nat) ∧
    ((message_typed 0 () 1 (wrap_in_envelope ElC Nat Unit 1 (5 : Nat) none)).fst
        = some 5 ∧
      (message_typed 0 () 1
          (message_typed 0 () 1
            (wrap_in_envelope ElC Nat Unit 1 (5 : Nat) none)).snd).fst
        = none) :=
  ⟨by decide,
    @message_typed_second_none Nat instDecidableEqNat ElC Nat Unit 1 0 ()
      (5 : Nat) none (by decide)⟩

/-- C9, counterexample: with a unit payload, a wrong-type extraction does
return the absent result and does consume the slot, but the subsequent
extraction with the correct type returns `some ()` rather than the absent
result the claim demands, because the consumed slot hands out an erased
unit value that downcasts to the unit payload type. -/
theorem wrong_type_extraction_unit_payload :
    (message_typed 0 () 1 envU).fst = (none : Option (ElC 1)) ∧
    (message_typed 0 () 0 (message_typed 0 () 1 envU).snd).fst = some () :=
  ⟨rfl, rfl⟩

/-- C9, amended: for a payload type distinct from the unit type, a typed
extraction with a wrong type code returns the absent result but still
consumes the payload: the slot is empty afterwards, the reply-sender is
dropped so the receiver resolves to the cancelled outcome, and a
subsequent extraction with the correct type also returns the absent
result. -/
theorem wrong_type_extraction {U : Type} [DecidableEq U] {El : U → Type}
    {R G : Type} {mC : U} (unitC : U) (u0 : El unitC) (w : U) (m : El mC)
    (g : Option G) (hw : w ≠ mC) (hu : mC ≠ unitC) :
    (message_typed unitC u0 w (wrap_in_envelope El R G mC m g)).fst = none ∧
    (message_typed unitC u0 w (wrap_in_envelope El R G mC m g)).snd.slot
        = none ∧
    receiver_outcome
        (message_typed unitC u0 w (wrap_in_envelope El R G mC m g)).snd
        = none ∧
    (message_typed unitC u0 mC
        (message_typed unitC u0 w (wrap_in_envelope El R G mC m g)).snd).fst
      = none := by
  refine ⟨?_, ?_, ?_, ?_⟩
  · simp [message_typed, message, wrap_in_envelope, downcastTo, Ne.symm hw]
  · simp [message_typed, message, wrap_in_envelope]
  · simp [message_typed, message, wrap_in_envelope, receiver_outcome]
  · simp [message_typed, message, wrap_in_envelope, downcastTo, Ne.symm hu]

/-- Witness for the amended C9: payload `Increment(5)` at code 1, wrong
code 2, unit code 0. -/
theorem wrong_type_extraction_witness :
    (2 : Nat) ≠ 1 ∧ (1 : Nat) ≠ (0 : Nat) ∧
    ((message_typed 0 () 2
          (wrap_in_envelope ElC Nat Unit 1 (5 : Nat) none)).fst = none ∧
      (message_typed 0 () 2
          (wrap_in_envelope ElC Nat Unit 1 (5 : Nat) none)).snd.slot = none ∧
      receiver_outcome
          (message_typed 0 () 2
            (wrap_in_envelope ElC Nat Unit 1 (5 : Nat) none)).snd = none ∧
      (message_typed 0 () 1
          (message_typed 0 () 2
            (wrap_in_envelope ElC Nat Unit 1 (5 : Nat) none)).snd).fst
        = none) :=
  ⟨by decide, by decide,
    @wrong_type_extraction Nat instDecidableEqNat ElC Nat Unit 1 0 () 2
      (5 : Nat) none (by decide) (by decide)⟩

/-- C1: dispatch on a freshly built envelope never panics and invokes the
handler exactly once (the resulting actor state is exactly one application
of the handler to the payload); the resulting envelope is consumed, and any
further dispatch on it — with any handler whatsoever, so in particular
without invoking the original handler again — panics with the
double-dispatch message rather than silently doing nothing.  The same
fatal outcome follows when the envelope was consumed by a typed payload
extraction instead of a dispatch. -/
theorem dispatch_exactly_once {U : Type} [DecidableEq U] {El : U → Type}
    {R G : Type} {mC : U} {A Ctx E : Type}
    (handle : A → El mC → Ctx → A × Except E R) (m : El mC) (g : Option G)
    (actor : A) (ctx : Ctx) :
    ∃ st e2 a2,
      handle_message handle (wrap_in_envelope El R G mC m g) actor ctx =
        PanicOr.ok (st, e2, a2) ∧
      a2 = (handle actor m ctx).fst ∧
      e2.slot = none ∧
      (∀ {A2 Ctx2 E2 : Type} (h2 : A2 → El mC → Ctx2 → A2 × Except E2 R)
          (b : A2) (c : Ctx2),
        handle_message h2 e2 b c =
          PanicOr.fatal "handle_message should never be called twice.") ∧
      (∀ (unitC : U) (u0 : El unitC) (t : U) {A2 Ctx2 E2 : Type}
          (h2 : A2 → El mC → Ctx2 → A2 × Except E2 R) (b : A2) (c : Ctx2),
        handle_message h2
            (message_typed unitC u0 t (wrap_in_envelope El R G mC m g)).snd
            b c =
          PanicOr.fatal "handle_message should never be called twice.") := by
  rcases hh : handle actor m ctx with ⟨a2, res⟩
  cases res with
  | ok r =>
    refine ⟨Except.ok (),
      { slot := none, sent := some r, receiverDropped := false, guard := g },
      a2, ?_, ?_, rfl, ?_, ?_⟩
    · simp [handle_message, wrap_in_envelope, hh]
    · simp [hh]
    · intro A2 Ctx2 E2 h2 b c
      rfl
    · intro unitC u0 t A2 Ctx2 E2 h2 b c
      simp [message_typed, message, wrap_in_envelope, handle_message]
  | error ex =>
    refine ⟨Except.error ex,
      { slot := none, sent := none, receiverDropped := false, guard := g },
      a2, ?_, ?_, rfl, ?_, ?_⟩
    · simp [handle_message, wrap_in_envelope, hh]
    · simp [hh]
    · intro A2 Ctx2 E2 h2 b c
      rfl
    · intro unitC u0 t A2 Ctx2 E2 h2 b c
      simp [message_typed, message, wrap_in_envelope, handle_message]

/-- C2: dispatch on a loaded envelope propagates the handler outcome
verbatim: a handler `Ok(reply)` makes dispatch return `Ok(())` with the
reply delivered unchanged into the reply channel (the receiver yields it),
and a handler `Err(exit)` makes dispatch return exactly that exit status,
neither inspected nor altered. -/
theorem dispatch_propagates_handler_result {U : Type} {El : U → Type}
    {R G : Type} {mC : U} {A Ctx E : Type}
    (handle : A → El mC → Ctx → A × Except E R) (m : El mC) (g : Option G)
    (actor : A) (ctx : Ctx) :
    (∀ a2 r, handle actor m ctx = (a2, Except.ok r) →
      ∃ e2,
        handle_message handle (wrap_in_envelope El R G mC m g) actor ctx =
          PanicOr.ok (Except.ok (), e2, a2) ∧
        receiver_outcome e2 = some r) ∧
    (∀ a2 ex, handle actor m ctx = (a2, Except.error ex) →
      ∃ e2,
        handle_message handle (wrap_in_envelope El R G mC m g) actor ctx =
          PanicOr.ok (Except.error ex, e2, a2)) := by
  constructor
  · intro a2 r hh
    refine ⟨{ slot := none, sent := some r, receiverDropped := false,
              guard := g }, ?_, rfl⟩
    simp [handle_message, wrap_in_envelope, hh]
  · intro a2 ex hh
    refine ⟨{ slot := none, sent := none, receiverDropped := false,
              guard := g }, ?_⟩
    simp [handle_message, wrap_in_envelope, hh]

/-- Witness for C2 at spec Scenario A: Counter at 10, Increment(5), the
receiver yields 15. -/
theorem dispatch_scenarioA :
    ∃ e2,
      handle_message counterHandle envA 10 () =
        PanicOr.ok (Except.ok (), e2, 15) ∧
      receiver_outcome e2 = some 15 :=
  (dispatch_propagates_handler_result counterHandle (5 : Nat) none 10 ()).1
    15 15 rfl

/-- C5: when the reply receiver was dropped before dispatch, dispatch still
runs the handler to completion and returns the handler `Ok` outcome without
error; the failed reply send is discarded and the reply never reaches
anyone. -/
theorem dispatch_receiver_dropped_ok {U : Type} {El : U → Type}
    {R G : Type} {mC : U} {A Ctx E : Type}
    (handle : A → El mC → Ctx → A × Except E R) (m : El mC) (g : Option G)
    (actor : A) (ctx : Ctx) :
    ∀ a2 r, handle actor m ctx = (a2, Except.ok r) →
      ∃ e2,
        handle_message handle
            (drop_receiver (wrap_in_envelope El R G mC m g)) actor ctx =
          PanicOr.ok (Except.ok (), e2, a2) ∧
        receiver_outcome e2 = none := by
  intro a2 r hh
  refine ⟨{ slot := none, sent := none, receiverDropped := true,
            guard := g }, ?_, rfl⟩
  simp [handle_message, drop_receiver, wrap_in_envelope, hh]

/-- Witness for C5 at spec Scenario D: receiver of the Scenario A envelope
dropped first, dispatch still returns the handler result. -/
theorem dispatch_scenarioD :
    ∃ e2,
      handle_message counterHandle (drop_receiver envA) 10 () =
        PanicOr.ok (Except.ok (), e2, 15) ∧
      receiver_outcome e2 = none :=
  dispatch_receiver_dropped_ok counterHandle (5 : Nat) none 10 () 15 15 rfl

/-- C10: when the handler returns an exit status, dispatch returns that
error and nothing is ever sent into the reply channel: the sender is
dropped without sending, so the receiver resolves to the cancelled
(no-reply) outcome rather than receiving the error. -/
theorem dispatch_error_no_reply {U : Type} {El : U → Type} {R G : Type}
    {mC : U} {A Ctx E : Type} (handle : A → El mC → Ctx → A × Except E R)
    (m : El mC) (g : Option G) (actor : A) (ctx : Ctx) (a2 : A) (ex : E)
    (hh : handle actor m ctx = (a2, Except.error ex)) :
    ∃ e2,
      handle_message handle (wrap_in_envelope El R G mC m g) actor ctx =
        PanicOr.ok (Except.error ex, e2, a2) ∧
      e2.slot = none ∧ receiver_outcome e2 = none := by
  refine ⟨{ slot := none, sent := none, receiverDropped := false,
            guard := g }, ?_, rfl, rfl⟩
  simp [handle_message, wrap_in_envelope, hh]

/-- Witness for C10: a Counter handler that fails; the dispatch returns the
exit status and the receiver is cancelled. -/
theorem dispatch_error_no_reply_witness :
    ∃ e2,
      handle_message failHandle envA 10 () =
        PanicOr.ok (Except.error "handler failed", e2, 10) ∧
      e2.slot = none ∧ receiver_outcome e2 = none :=
  dispatch_error_no_reply failHandle (5 : Nat) none 10 () 10
    "handler failed" rfl

/-- C6: the debug representation is a pure function of the envelope state
(the source takes a shared reference, so it cannot change the holder and is
callable any number of times; in this model it is a total function into
`String`, so it never fails).  It returns the payload formatted while the
holder is loaded and the fixed sentinel once the holder is consumed,
whether consumption happened through typed extraction or through
dispatch. -/
theorem debug_representation {U : Type} [DecidableEq U] {El : U → Type}
    {R G : Type} {mC : U} (fmtM : El mC → String) (m : El mC)
    (g : Option G) :
    (debug_msg fmtM (wrap_in_envelope El R G mC m g) = fmtM m) ∧
    (∀ e : Envelope U El R G mC,
      e.slot = none → debug_msg fmtM e = "<consumed>") ∧
    (∀ (unitC : U) (u0 : El unitC) (t : U),
      debug_msg fmtM
          (message_typed unitC u0 t (wrap_in_envelope El R G mC m g)).snd
        = "<consumed>") ∧
    (∀ {A Ctx E : Type} (handle : A → El mC → Ctx → A × Except E R)
        (actor : A) (ctx : Ctx) (e2 : Envelope U El R G mC),
      afterDispatch handle (wrap_in_envelope El R G mC m g) actor ctx
          = some e2 →
      debug_msg fmtM e2 = "<consumed>") := by
  refine ⟨rfl, ?_, ?_, ?_⟩
  · intro e h
    simp [debug_msg, h]
  · intro unitC u0 t
    simp [message_typed, message, wrap_in_envelope, debug_msg]
  · intro A Ctx E handle actor ctx e2 h
    rcases hh : handle actor m ctx with ⟨a2, res⟩
    cases res <;>
      simp [afterDispatch, handle_message, wrap_in_envelope, hh] at h <;>
      simp [← h, debug_msg]

/-- Witness for C6: the Scenario A envelope before consumption, after typed
extraction, and after dispatch. -/
theorem debug_representation_witness :
    debug_msg fmtIncr envA = fmtIncr 5 ∧
    debug_msg fmtIncr envAafter = "<consumed>" ∧
    debug_msg fmtIncr (message_typed 0 () 1 envA).snd = "<consumed>" ∧
    debug_msg fmtIncr envAafter = "<consumed>" :=
  ⟨(@debug_representation Nat instDecidableEqNat ElC Nat Unit 1 fmtIncr
      5 none).1,
   (@debug_representation Nat instDecidableEqNat ElC Nat Unit 1 fmtIncr
      5 none).2.1 envAafter rfl,
   (@debug_representation Nat instDecidableEqNat ElC Nat Unit 1 fmtIncr
      5 none).2.2.1 0 () 1,
   (@debug_representation Nat instDecidableEqNat ElC Nat Unit 1 fmtIncr
      5 none).2.2.2 counterHandle 10 () envAafter rfl⟩

/-- Helper: a single operation either preserves the slot or empties it. -/
theorem applyOp_slot_mono {U : Type} [DecidableEq U] {El : U → Type}
    {R G : Type} {mC : U} {A Ctx E : Type} (unitC : U) (u0 : El unitC)
    (handle : A → El mC → Ctx → A × Except E R) (op : Op U A Ctx)
    (e e2 : Envelope U El R G mC)
    (h : applyOp unitC u0 handle op e = some e2) :
    e2.slot = e.slot ∨ e2.slot = none := by
  cases op with
  | extractOpaque =>
    cases hs : e.slot <;> simp [applyOp, message, hs] at h <;>
      simp [← h, hs]
  | extractTyped t =>
    cases hs : e.slot <;>
      simp [applyOp, message_typed, message, hs] at h <;>
      simp [← h, hs]
  | debugFmt =>
    simp [applyOp] at h
    simp [← h]
  | dropReceiver =>
    simp [applyOp, drop_receiver] at h
    simp [← h]
  | dispatch actor ctx =>
    cases hs : e.slot with
    | none => simp [applyOp, afterDispatch, handle_message, hs] at h
    | some m =>
      rcases hh : handle actor m ctx with ⟨a2, res⟩
      cases res <;>
        simp [applyOp, afterDispatch, handle_message, hs, hh] at h <;>
        simp [← h]

/-- C7: the envelope state machine is one-way.  The factory creates the
holder loaded; every operation either leaves the slot as it was or empties
it (debug formatting takes a shared reference and cannot change it at
all); and along any sequence of operations a consumed holder stays
consumed — there is no transition back to loaded. -/
theorem state_machine_one_way {U : Type} [DecidableEq U] {El : U → Type}
    {R G : Type} {mC : U} {A Ctx E : Type} (unitC : U) (u0 : El unitC)
    (handle : A → El mC → Ctx → A × Except E R) (m : El mC)
    (g : Option G) :
    ((wrap_in_envelope El R G mC m g).slot = some m) ∧
    (∀ (op : Op U A Ctx) (e e2 : Envelope U El R G mC),
      applyOp unitC u0 handle op e = some e2 →
      e2.slot = e.slot ∨ e2.slot = none) ∧
    (∀ (ops : List (Op U A Ctx)) (e e2 : Envelope U El R G mC),
      runOps unitC u0 handle ops e = some e2 →
      e.slot = none → e2.slot = none) := by
  refine ⟨rfl, applyOp_slot_mono unitC u0 handle, ?_⟩
  intro ops
  induction ops with
  | nil =>
    intro e e2 h hn
    simp [runOps] at h
    simpa [← h] using hn
  | cons op rest ih =>
    intro e e2 h hn
    rw [runOps] at h
    cases hap : applyOp unitC u0 handle op e with
    | none => simp [hap] at h
    | some e3 =>
      rw [hap] at h
      rcases applyOp_slot_mono unitC u0 handle op e e3 hap with h3 | h3
      · exact ih e3 e2 h (h3.trans hn)
      · exact ih e3 e2 h h3

/-- Witness for C7: the loaded Scenario A envelope, one concrete
consuming operation, and a concrete operation sequence run from a consumed
state. -/
theorem state_machine_one_way_witness :
    (wrap_in_envelope ElC Nat Unit 1 (5 : Nat) none).slot = some 5 ∧
    (({ slot := none, sent := none, receiverDropped := false,
        guard := none } : Envelope Nat ElC Nat Unit 1).slot = envA.slot ∨
      ({ slot := none, sent := none, receiverDropped := false,
         guard := none } : Envelope Nat ElC Nat Unit 1).slot = none) ∧
    envAafter.slot = none :=
  ⟨(@state_machine_one_way Nat instDecidableEqNat ElC Nat Unit 1 Nat Unit
      String 0 () counterHandle 5 none).1,
   (@state_machine_one_way Nat instDecidableEqNat ElC Nat Unit 1 Nat Unit
      String 0 () counterHandle 5 none).2.1 Op.extractOpaque envA
      { slot := none, sent := none, receiverDropped := false,
        guard := none } rfl,
   (@state_machine_one_way Nat instDecidableEqNat ElC Nat Unit 1 Nat Unit
      String 0 () counterHandle 5 none).2.2
      [Op.extractOpaque, Op.debugFmt, Op.dropReceiver] envAafter
      (drop_receiver envAafter) rfl rfl⟩

/-- C8: the scheduler guard is pure frame.  The factory stores the guard
it was given; extraction (opaque and typed), receiver dropping, debug
formatting and dispatch all leave the guard field unchanged; and no
operation inspects the guard: replacing it by any other value commutes
with every operation.  The guard therefore stays inside the envelope until
the envelope itself is destroyed, which in the source is the single point
where it is released (Rust drops the field exactly once, with the
envelope). -/
theorem guard_frame {U : Type} [DecidableEq U] {El : U → Type}
    {R G : Type} {mC : U} {A Ctx E : Type} (unitC : U) (u0 : El unitC)
    (handle : A → El mC → Ctx → A × Except E R) (fmtM : El mC → String)
    (m : El mC) (g : Option G) :
    ((wrap_in_envelope El R G mC m g).guard = g) ∧
    (∀ e : Envelope U El R G mC,
      (message unitC u0 e).snd.guard = e.guard) ∧
    (∀ (t : U) (e : Envelope U El R G mC),
      (message_typed unitC u0 t e).snd.guard = e.guard) ∧
    (∀ e : Envelope U El R G mC, (drop_receiver e).guard = e.guard) ∧
    (∀ (e : Envelope U El R G mC) (g2 : Option G),
      message unitC u0 (setGuard e g2) =
        ((message unitC u0 e).fst, setGuard (message unitC u0 e).snd g2)) ∧
    (∀ (t : U) (e : Envelope U El R G mC) (g2 : Option G),
      message_typed unitC u0 t (setGuard e g2) =
        ((message_typed unitC u0 t e).fst,
          setGuard (message_typed unitC u0 t e).snd g2)) ∧
    (∀ (e : Envelope U El R G mC) (g2 : Option G),
      debug_msg fmtM (setGuard e g2) = debug_msg fmtM e) ∧
    (∀ (e : Envelope U El R G mC) (actor : A) (ctx : Ctx) st
        (e2 : Envelope U El R G mC) (a2 : A),
      handle_message handle e actor ctx = PanicOr.ok (st, e2, a2) →
      e2.guard = e.guard) := by
  refine ⟨rfl, ?_, ?_, ?_, ?_, ?_, ?_, ?_⟩
  · intro e
    cases hs : e.slot <;> simp [message, hs]
  · intro t e
    cases hs : e.slot <;> simp [message_typed, message, hs]
  · intro e
    rfl
  · intro e g2
    cases hs : e.slot <;> simp [message, setGuard, hs]
  · intro t e g2
    cases hs : e.slot <;> simp [message_typed, message, setGuard, hs]
  · intro e g2
    cases hs : e.slot <;> simp [debug_msg, setGuard, hs]
  · intro e actor ctx st e2 a2 h
    cases hs : e.slot with
    | none => simp [handle_message, hs] at h
    | some msg =>
      rcases hh : handle actor msg ctx with ⟨a3, res⟩
      cases res <;> simp [handle_message, hs, hh] at h <;>
        simp [← h.2.1]

/-- Witness for C8: the guard of the Scenario A envelope survives its
dispatch. -/
theorem guard_frame_witness : envAafter.guard = envA.guard :=
  (@guard_frame Nat instDecidableEqNat ElC Nat Unit 1 Nat Unit String
      0 () counterHandle fmtIncr 5 none).2.2.2.2.2.2.2 envA 10 ()
    (Except.ok ()) envAafter 15 rfl

end EnvelopeModel
